import Mathlib

/-!
Verification of the wine-quality prediction pipeline (src/app.py): data
cleaning, binary label derivation, train/test split, logistic-regression
prediction, evaluation metrics, ROC/AUC, and the two interactive
operations (correlation projection and quality prediction).

Numeric feature values are modelled as rationals; missing values in raw
input (and in the interactive number inputs, which deliver either a
number or None) are modelled with Option.
-/

/-- A raw input row as parsed from the CSV: 11 physicochemical features
plus the quality score, each possibly missing. Mirrors the column order
of data/winequality-red.csv. -/
structure RawRow where
  fixed_acidity : Option ℚ
  volatile_acidity : Option ℚ
  citric_acid : Option ℚ
  residual_sugar : Option ℚ
  chlorides : Option ℚ
  free_sulfur_dioxide : Option ℚ
  total_sulfur_dioxide : Option ℚ
  density : Option ℚ
  pH : Option ℚ
  sulphates : Option ℚ
  alcohol : Option ℚ
  quality : Option ℚ
deriving DecidableEq, Repr

/-- A fully populated record: 11 features plus the quality field
(raw score before line 42 of app.py, binary label after). -/
structure Row where
  fixed_acidity : ℚ
  volatile_acidity : ℚ
  citric_acid : ℚ
  residual_sugar : ℚ
  chlorides : ℚ
  free_sulfur_dioxide : ℚ
  total_sulfur_dioxide : ℚ
  density : ℚ
  pH : ℚ
  sulphates : ℚ
  alcohol : ℚ
  quality : ℚ
deriving DecidableEq, Repr

instance : Inhabited Row :=
  ⟨⟨0, 0, 0, 0, 0, 0, 0, 0, 0, 0, 0, 0⟩⟩

/-- A raw row with no missing field, converted to a Row; none otherwise. -/
def RawRow.toRow (r : RawRow) : Option Row :=
  match r.fixed_acidity, r.volatile_acidity, r.citric_acid, r.residual_sugar,
    r.chlorides, r.free_sulfur_dioxide, r.total_sulfur_dioxide, r.density,
    r.pH, r.sulphates, r.alcohol, r.quality with
  | some a, some b, some c, some d, some e, some f, some g, some h,
    some i, some j, some k, some q => some ⟨a, b, c, d, e, f, g, h, i, j, k, q⟩
  | _, _, _, _, _, _, _, _, _, _, _, _ => none

/-- data.dropna(inplace=True), app.py line 26: keep the rows with no
missing value. -/
def dropna (rows : List RawRow) : List Row :=
  rows.filterMap RawRow.toRow

/-- DataFrame.drop_duplicates with keep="first": keep the first
occurrence of every distinct row. Defined because app.py line 28 calls
it; see cleanData for how the call site uses (or rather discards) it. -/
def drop_duplicates (rows : List Row) : List Row :=
  rows.foldl (fun acc r => if r ∈ acc then acc else acc ++ [r]) []

/-- The cleaning step actually performed by app.py lines 26 and 28.
Line 26 drops missing-value rows in place; line 28 evaluates
data.drop_duplicates(keep="first") but neither passes inplace=True nor
assigns the result, so the duplicate-free frame is discarded and the
dataset keeps its duplicate rows. -/
def cleanData (rows : List RawRow) : List Row :=
  let afterDropna := dropna rows
  let _discarded := drop_duplicates afterDropna
  afterDropna

/-- Modelled from the spec: the cleaning step as the spec describes it
(and as the comment above app.py line 28 announces): drop missing-value
rows, then drop exact duplicate rows keeping the first occurrence. -/
def cleanDataSpec (rows : List RawRow) : List Row :=
  drop_duplicates (dropna rows)

/-- The quality labelling lambda of app.py line 42:
1 if x >= 6.0 else 0. -/
def labelQuality (x : ℚ) : ℚ :=
  if x ≥ 6 then 1 else 0

/-- app.py line 42 applied to one record: the quality column is
overwritten with the binary label; every other field is unchanged. -/
def labelRow (r : Row) : Row :=
  { r with quality := labelQuality r.quality }

/-- The dataset as it stands after app.py line 42: cleaned, then the
quality column relabelled in place. -/
def labeledData (rows : List RawRow) : List Row :=
  (cleanData rows).map labelRow

/-- X = data.drop("quality", axis=1), app.py line 56: the 11-dimensional
feature vector in canonical column order, quality excluded. -/
def features (r : Row) : List ℚ :=
  [r.fixed_acidity, r.volatile_acidity, r.citric_acid, r.residual_sugar,
   r.chlorides, r.free_sulfur_dioxide, r.total_sulfur_dioxide, r.density,
   r.pH, r.sulphates, r.alcohol]

/-- The fixed column header of data/winequality-red.csv: 11 features
plus quality. data.columns in app.py. -/
def columns : List String :=
  ["fixed acidity", "volatile acidity", "citric acid", "residual sugar",
   "chlorides", "free sulfur dioxide", "total sulfur dioxide", "density",
   "pH", "sulphates", "alcohol", "quality"]

/-- Column lookup by name, as px.scatter resolves the x and y arguments
against the frame; an unrecognized name has no accessor. -/
def colFun : String → Option (Row → ℚ)
  | "fixed acidity" => some Row.fixed_acidity
  | "volatile acidity" => some Row.volatile_acidity
  | "citric acid" => some Row.citric_acid
  | "residual sugar" => some Row.residual_sugar
  | "chlorides" => some Row.chlorides
  | "free sulfur dioxide" => some Row.free_sulfur_dioxide
  | "total sulfur dioxide" => some Row.total_sulfur_dioxide
  | "density" => some Row.density
  | "pH" => some Row.pH
  | "sulphates" => some Row.sulphates
  | "alcohol" => some Row.alcohol
  | "quality" => some Row.quality
  | _ => none

/-- The failure outcomes of the two request handlers. app.py defines no
error classes of its own: what a bad request actually raises is a
ValueError coming out of numpy/sklearn (non-numeric prediction input) or
plotly (unknown column name). invalidInputError and unknownFeatureError
are the error names the spec postulates; they appear here only so the
spec wording is statable, no code path produces them. -/
inductive ServiceError where
  | invalidInputError
  | unknownFeatureError
  | valueError
deriving DecidableEq, Repr

/-- update_correlation_plot, app.py lines 208-211: px.scatter(data,
x=x_feature, y=y_feature, color="quality") yields one
(x, y, quality) sample per record of the shared frame; an unrecognized
column name makes plotly raise a ValueError. -/
def update_correlation_plot (dataRows : List Row) (x_feature y_feature : String) :
    Except ServiceError (List (ℚ × ℚ × ℚ)) :=
  match colFun x_feature, colFun y_feature with
  | some fx, some fy => .ok (dataRows.map (fun r => (fx r, fy r, r.quality)))
  | _, _ => .error .valueError

/-- A fully populated raw row, for concrete test datasets. -/
def fullRaw (a b c d e f g h i j k q : ℚ) : RawRow :=
  ⟨some a, some b, some c, some d, some e, some f, some g, some h,
   some i, some j, some k, some q⟩

/-- A raw row whose alcohol field is missing. -/
def rawMissingAlcohol : RawRow :=
  ⟨some 3, some 3, some 3, some 3, some 3, some 3, some 3, some 3,
   some 3, some 3, none, some 6⟩

/-- Scenario A of the spec: 4 raw rows, the third an exact duplicate of
the first, the fourth with a missing field. -/
def scenarioA : List RawRow :=
  [fullRaw 1 1 1 1 1 1 1 1 1 1 1 5,
   fullRaw 2 2 2 2 2 2 2 2 2 2 2 7,
   fullRaw 1 1 1 1 1 1 1 1 1 1 1 5,
   rawMissingAlcohol]

/-- The fitted logistic-regression model (logreg_model, app.py line 66):
one learned weight per feature plus an intercept. -/
structure Model where
  weights : List ℚ
  bias : ℚ
deriving DecidableEq, Repr

/-- The linear decision score w . x + b of the fitted model. -/
def Model.decision (m : Model) (x : List ℚ) : ℚ :=
  (List.zipWith (· * ·) m.weights x).sum + m.bias

/-- LogisticRegression.predict: class 1 when the decision score is
positive (estimated probability of class 1 above 0.5), else class 0. -/
def Model.predict (m : Model) (x : List ℚ) : ℕ :=
  if 0 < m.decision x then 1 else 0

/-- The state the Dash process shares across requests: the cleaned and
relabelled frame read by the correlation callback, and the fitted model
read by the prediction callback. -/
structure ServiceState where
  dataRows : List Row
  model : Model
deriving DecidableEq, Repr

/-- The two literal response strings of app.py lines 241 and 243. -/
def goodMsg : String := "This wine is predicted to be good quality."

/-- The bad-quality response string. -/
def badMsg : String := "This wine is predicted to be bad quality."

/-- The assembly np.array([...]) over possibly-missing entries: a
numeric input vector exists only when every entry is numeric. -/
def seqOptions {α : Type} : List (Option α) → Option (List α)
  | [] => some []
  | none :: _ => none
  | some x :: rest => (seqOptions rest).map (fun xs => x :: xs)

/-- predict_quality, app.py lines 231-243. The 11 State inputs are Dash
number fields, each delivering a rational or None (missing or
non-numeric entry). The callback builds np.array([...]).reshape(1, -1)
and calls logreg_model.predict on it with no validation of its own: when
any value is None the array has object dtype and sklearn raises a
ValueError; otherwise the hard 0/1 prediction selects one of the two
literal strings. n_clicks is accepted and never read. -/
def predict_quality (model : Model) (n_clicks : ℕ)
    (fixed_acidity volatile_acidity citric_acid residual_sugar chlorides
     free_sulfur_dioxide total_sulfur_dioxide density ph sulphates
     alcohol : Option ℚ) : Except ServiceError String :=
  let _ := n_clicks
  match seqOptions [fixed_acidity, volatile_acidity, citric_acid,
    residual_sugar, chlorides, free_sulfur_dioxide, total_sulfur_dioxide,
    density, ph, sulphates, alcohol] with
  | some xs =>
      if model.predict xs = 1 then .ok goodMsg else .ok badMsg
  | none => .error .valueError

/-- One prediction request against the running service: the callback
only reads the shared state (the model global), so the state after the
request is the state before it, paired with the response. -/
def handlePredict (s : ServiceState) (n_clicks : ℕ)
    (xs : List (Option ℚ)) : ServiceState × Except ServiceError String :=
  match xs with
  | [a, b, c, d, e, f, g, h, i, j, k] =>
      (s, predict_quality s.model n_clicks a b c d e f g h i j k)
  | _ => (s, .error .valueError)

/-- One correlation request against the running service: the callback
only reads the shared frame, so the state is returned unchanged. -/
def handleCorrelation (s : ServiceState) (x_feature y_feature : String) :
    ServiceState × Except ServiceError (List (ℚ × ℚ × ℚ)) :=
  (s, update_correlation_plot s.dataRows x_feature y_feature)

/-- sklearn test-set sizing for a fractional test_size: the number of
test samples is the ceiling of test_size times the sample count. -/
def nTest (test_size : ℚ) (n : ℕ) : ℕ :=
  ⌈test_size * n⌉₊

/-- The index split behind train_test_split (app.py lines 60-61): the RNG
seeded with random_state=42 draws a permutation of the row indices; the
first nTest permuted indices form the test set and the rest the training
set. The Mersenne-Twister permutation for a fixed seed is a fixed pure
function of n; it is abstracted here as the explicit argument perm. -/
def splitIndices (perm : List ℕ) (test_size : ℚ) (n : ℕ) : List ℕ × List ℕ :=
  (perm.drop (nTest test_size n), perm.take (nTest test_size n))

/-- train_test_split on a sequence of records: gather the training and
test rows by their permuted indices. The same index split is applied to
X and y at the call site, so one generic record type suffices. -/
def train_test_split {α : Type} [Inhabited α] (perm : List ℕ)
    (test_size : ℚ) (rows : List α) : List α × List α :=
  let idx := splitIndices perm test_size rows.length
  (idx.1.map (fun i => rows.getD i default),
   idx.2.map (fun i => rows.getD i default))

/-- y_pred = logreg_model.predict(X_test), app.py line 70: the hard 0/1
predictions on the test rows. -/
def y_pred (m : Model) (testX : List Row) : List ℕ :=
  testX.map (fun r => m.predict (features r))

/-- Count of (true label, predicted label) pairs equal to (a, b). -/
def countPair (a b : ℕ) (y_true yp : List ℕ) : ℕ :=
  (y_true.zip yp).countP (fun p => p.1 == a && p.2 == b)

/-- True positives: label 1 predicted 1. -/
def TP (y_true yp : List ℕ) : ℕ := countPair 1 1 y_true yp

/-- False positives: label 0 predicted 1. -/
def FP (y_true yp : List ℕ) : ℕ := countPair 0 1 y_true yp

/-- False negatives: label 1 predicted 0. -/
def FN (y_true yp : List ℕ) : ℕ := countPair 1 0 y_true yp

/-- True negatives: label 0 predicted 0. -/
def TN (y_true yp : List ℕ) : ℕ := countPair 0 0 y_true yp

/-- confusion_matrix(y_test, y_pred), app.py line 75, in sklearn layout
[[TN, FP], [FN, TP]]. -/
def confusion_matrix (y_true yp : List ℕ) : (ℕ × ℕ) × (ℕ × ℕ) :=
  ((TN y_true yp, FP y_true yp), (FN y_true yp, TP y_true yp))

/-- Metric values are modelled in Option: some q is an ordinary float
value, none is NaN. -/
abbrev MetricValue := Option ℚ

/-- accuracy_score(y_test, y_pred), app.py line 77: the mean of the
elementwise agreement. numpy's mean of an empty array is NaN (with a
RuntimeWarning, no exception). -/
def accuracy_score (y_true yp : List ℕ) : MetricValue :=
  if y_true.length = 0 then none
  else some (((y_true.zip yp).countP (fun p => p.1 == p.2) : ℚ) / y_true.length)

/-- precision_score(y_test, y_pred), app.py line 79, with the default
zero_division="warn": TP/(TP+FP), reported as 0.0 (plus an
UndefinedMetricWarning, no exception and no NaN) when TP+FP = 0. -/
def precision_score (y_true yp : List ℕ) : MetricValue :=
  some (if TP y_true yp + FP y_true yp = 0 then 0
        else (TP y_true yp : ℚ) / (TP y_true yp + FP y_true yp))

/-- recall_score(y_test, y_pred), app.py line 81, default
zero_division="warn": TP/(TP+FN), reported as 0.0 when TP+FN = 0. -/
def recall_score (y_true yp : List ℕ) : MetricValue :=
  some (if TP y_true yp + FN y_true yp = 0 then 0
        else (TP y_true yp : ℚ) / (TP y_true yp + FN y_true yp))

/-- f1_score(y_test, y_pred), app.py line 83, default
zero_division="warn": 2TP/(2TP+FP+FN), reported as 0.0 when the
denominator is 0. -/
def f1_score (y_true yp : List ℕ) : MetricValue :=
  some (if 2 * TP y_true yp + FP y_true yp + FN y_true yp = 0 then 0
        else (2 * TP y_true yp : ℚ) / (2 * TP y_true yp + FP y_true yp + FN y_true yp))

/-- The thresholds roc_curve derives from a hard 0/1 score vector (the
only kind the pipeline passes, app.py line 92): the distinct score
values in decreasing order, preceded by the sentinel max(score)+1. -/
def thresholdsOf (yp : List ℕ) : List ℕ :=
  if 1 ∈ yp then (if 0 ∈ yp then [2, 1, 0] else [2, 1])
  else (if 0 ∈ yp then [1, 0] else [])

/-- False positives at a threshold: label-0 samples with score ≥ t. -/
def fpAt (y_true yp : List ℕ) (t : ℕ) : ℕ :=
  (y_true.zip yp).countP (fun p => p.1 == 0 && t ≤ p.2)

/-- True positives at a threshold: label-1 samples with score ≥ t. -/
def tpAt (y_true yp : List ℕ) (t : ℕ) : ℕ :=
  (y_true.zip yp).countP (fun p => p.1 == 1 && t ≤ p.2)

/-- roc_curve(y_test, y_pred), app.py line 92, on a hard 0/1 score
vector: for each threshold t in decreasing order, predict positive iff
score ≥ t and record (FPR, TPR); returns (fpr, tpr, thresholds). -/
def roc_curve (y_true yp : List ℕ) : List ℚ × List ℚ × List ℕ :=
  let N : ℕ := y_true.countP (· == 0)
  let P : ℕ := y_true.countP (· == 1)
  let thr := thresholdsOf yp
  (thr.map (fun t => (fpAt y_true yp t : ℚ) / N),
   thr.map (fun t => (tpAt y_true yp t : ℚ) / P),
   thr)

/-- np.trapz y x: the trapezoidal integral of the polyline through the
(x, y) samples. -/
def trapz : List ℚ → List ℚ → ℚ
  | y1 :: y2 :: ys, x1 :: x2 :: xs =>
      (x2 - x1) * (y1 + y2) / 2 + trapz (y2 :: ys) (x2 :: xs)
  | _, _ => 0

/-- roc_auc_score(y_test, y_pred), app.py line 93: the trapezoidal area
under the ROC curve built from the same hard 0/1 scores. -/
def roc_auc_score (y_true yp : List ℕ) : ℚ :=
  let c := roc_curve y_true yp
  trapz c.2.1 c.1

/-- The ROC computation as the pipeline invokes it: on the hard
predictions of the fitted model over the test rows. -/
def evalROC (m : Model) (testX : List Row) (testY : List ℕ) :
    List ℚ × List ℚ × List ℕ :=
  roc_curve testY (y_pred m testX)

/-- The AUC as the pipeline invokes it, from the same hard predictions. -/
def evalAUC (m : Model) (testX : List Row) (testY : List ℕ) : ℚ :=
  roc_auc_score testY (y_pred m testX)

/-- A concrete stand-in fitted model used by the witness scenarios. -/
def m0 : Model :=
  ⟨[0, 0, 0, 0, 0, 0, 0, 0, 0, 0, 0], 1⟩

/-- A concrete row with raw quality 7 (a good wine before labelling). -/
def rowQ7 : Row :=
  ⟨1, 1, 1, 1, 1, 1, 1, 1, 1, 1, 11, 7⟩

/-- A concrete service state for the request-handling scenarios. -/
def s0 : ServiceState :=
  ⟨[rowQ7], m0⟩

/-- A concrete 5-row cleaned dataset for the split-engine scenario. -/
def rows5 : List Row :=
  [⟨1, 1, 1, 1, 1, 1, 1, 1, 1, 1, 1, 5⟩,
   ⟨2, 2, 2, 2, 2, 2, 2, 2, 2, 2, 2, 6⟩,
   ⟨3, 3, 3, 3, 3, 3, 3, 3, 3, 3, 3, 7⟩,
   ⟨4, 4, 4, 4, 4, 4, 4, 4, 4, 4, 4, 4⟩,
   ⟨5, 5, 5, 5, 5, 5, 5, 5, 5, 5, 5, 8⟩]

/-- A concrete permutation of the 5 row indices, standing in for the
seed-42 draw of the RNG. -/
def perm5 : List ℕ :=
  [4, 2, 0, 3, 1]

/-- C2: for every raw quality score q, the derived binary label is 1 iff
q >= 6.0 and 0 otherwise; in particular 6.0 maps to 1 and 5.999 maps
to 0. -/
theorem labelQuality_one_iff :
    (∀ q : ℚ, (labelQuality q = 1 ↔ 6 ≤ q) ∧ (labelQuality q = 0 ↔ q < 6)) ∧
    labelQuality 6 = 1 ∧ labelQuality (5999 / 1000) = 0 := by
  refine ⟨fun q => ⟨⟨?_, ?_⟩, ⟨?_, ?_⟩⟩, by norm_num [labelQuality],
    by norm_num [labelQuality]⟩
  · intro h
    by_contra hq
    simp [labelQuality, hq] at h
  · intro h
    simp [labelQuality, h]
  · intro h
    by_contra hq
    push_neg at hq
    simp [labelQuality, hq] at h
  · intro h
    simp [labelQuality, not_le.mpr h]

/-- C1 (code bug): on scenario A the cleaning step of app.py keeps 3
records, one of them a duplicate, because line 28 calls drop_duplicates
without inplace=True and discards its result; the cleaning the code
announces in its own comment (drop duplicate rows) would give the 2
duplicate-free records the spec claims. -/
theorem cleanData_keeps_duplicates :
    (cleanData scenarioA).length = 3 ∧
    ¬ (cleanData scenarioA).Nodup ∧
    (cleanData scenarioA).length ≠ 2 ∧
    (cleanDataSpec scenarioA).length = 2 := by
  refine ⟨rfl, ?_, by decide, rfl⟩
  intro h
  simp [cleanData, dropna, scenarioA, RawRow.toRow, fullRaw,
    rawMissingAlcohol, List.nodup_cons] at h

lemma seqOptions_eq_none {α : Type} (xs : List (Option α))
    (h : Option.none ∈ xs) : seqOptions xs = none := by
  induction xs with
  | nil => simp at h
  | cons x rest ih =>
    cases x with
    | none => rfl
    | some v =>
      simp only [List.mem_cons] at h
      rcases h with h | h
      · exact absurd h (by simp)
      · simp [seqOptions, ih h]

lemma predict_cases (m : Model) (x : List ℚ) :
    m.predict x = 0 ∨ m.predict x = 1 := by
  unfold Model.predict
  split <;> simp

/-- C3 (counterexample): label derivation does not retain the raw
quality score. A record with raw quality 7 has quality 1 after app.py
line 42 runs, and the correlation projection sees that binary label,
not the raw 7. -/
theorem label_overwrites_raw_quality :
    rowQ7.quality = 7 ∧
    (labelRow rowQ7).quality = 1 ∧
    ((1 : ℚ) ≠ 7) ∧
    update_correlation_plot [labelRow rowQ7] "alcohol" "quality" =
      .ok [(11, 1, 1)] := by
  refine ⟨rfl, by decide, by norm_num, rfl⟩

/-- C3 (amended): after app.py line 42 every record's quality field
holds the binary label, replacing the raw score; the 11-dimensional
feature vector never reads the quality field and is unchanged by label
derivation; the correlation projection therefore pairs feature values
with the binary label of each record. -/
theorem labeledData_replaces_quality (rows : List RawRow) :
    labeledData rows =
      (cleanData rows).map (fun r => { r with quality := labelQuality r.quality }) ∧
    (∀ (r : Row) (q : ℚ), features { r with quality := q } = features r) ∧
    (labeledData rows).map features = (cleanData rows).map features ∧
    update_correlation_plot (labeledData rows) "alcohol" "quality" =
      Except.ok ((cleanData rows).map
        (fun r => (r.alcohol, labelQuality r.quality, labelQuality r.quality))) := by
  refine ⟨rfl, fun r q => rfl, ?_, ?_⟩
  · rw [labeledData, List.map_map]
    exact List.map_congr_left (fun r _ => rfl)
  · show Except.ok ((labeledData rows).map (fun r => (r.alcohol, r.quality, r.quality))) = _
    rw [labeledData, List.map_map]
    exact congrArg Except.ok (List.map_congr_left (fun r _ => rfl))

/-- C5: for every 11-value numeric input the prediction callback returns
exactly one of the two literal strings, the good one iff the held model
predicts 1 and the bad one iff it predicts 0. -/
theorem predict_quality_strings (m : Model) (n : ℕ)
    (a b c d e f g h i j k : ℚ) :
    (predict_quality m n (some a) (some b) (some c) (some d) (some e)
        (some f) (some g) (some h) (some i) (some j) (some k) = .ok goodMsg ↔
      m.predict [a, b, c, d, e, f, g, h, i, j, k] = 1) ∧
    (predict_quality m n (some a) (some b) (some c) (some d) (some e)
        (some f) (some g) (some h) (some i) (some j) (some k) = .ok badMsg ↔
      m.predict [a, b, c, d, e, f, g, h, i, j, k] = 0) ∧
    (predict_quality m n (some a) (some b) (some c) (some d) (some e)
        (some f) (some g) (some h) (some i) (some j) (some k) = .ok goodMsg ∨
     predict_quality m n (some a) (some b) (some c) (some d) (some e)
        (some f) (some g) (some h) (some i) (some j) (some k) = .ok badMsg) := by
  have hmsg : goodMsg ≠ badMsg := by decide
  by_cases hp : m.predict [a, b, c, d, e, f, g, h, i, j, k] = 1
  · simp [predict_quality, seqOptions, hp, hmsg]
  · have h0 : m.predict [a, b, c, d, e, f, g, h, i, j, k] = 0 :=
      (predict_cases m _).resolve_right hp
    simp [predict_quality, seqOptions, hp, h0, hmsg.symm]

/-- C6 (counterexample): a prediction request with a missing alcohol
value fails with the ValueError sklearn raises on the object-dtype
array, not with a dedicated InvalidInputError (app.py defines none); the
shared state is returned untouched. -/
theorem predict_missing_is_valueError :
    handlePredict s0 1 [some 7, some 1, some 1, some 2, some 1, some 10,
      some 30, some 1, some 3, some 1, none] = (s0, .error .valueError) ∧
    (Except.error ServiceError.valueError : Except ServiceError String) ≠
      .error .invalidInputError := by
  exact ⟨rfl, by simp⟩

/-- C6 (amended): whenever any of the 11 required values is missing or
non-numeric the prediction callback fails (with the library ValueError,
since the code defines no InvalidInputError), never silently coerces a
value, and leaves the shared Dataset and Model unchanged with the
service still serving. -/
theorem predict_missing_amended (s : ServiceState) (n : ℕ)
    (a b c d e f g h i j k : Option ℚ)
    (hmiss : Option.none ∈ [a, b, c, d, e, f, g, h, i, j, k]) :
    handlePredict s n [a, b, c, d, e, f, g, h, i, j, k] =
      (s, .error .valueError) := by
  have hs := seqOptions_eq_none _ hmiss
  simp [handlePredict, predict_quality, hs]

/-- C6 witness: the amended statement at a concrete request whose
alcohol field is missing. -/
theorem predict_missing_amended_witness :
    Option.none ∈ ([some 7, some 1, some 1, some 2, some 1, some 10,
      some 30, some 1, some 3, some 1, none] : List (Option ℚ)) ∧
    handlePredict s0 3 [some 7, some 1, some 1, some 2, some 1, some 10,
      some 30, some 1, some 3, some 1, none] = (s0, .error .valueError) :=
  ⟨by decide,
   predict_missing_amended s0 3 (some 7) (some 1) (some 1) (some 2)
     (some 1) (some 10) (some 30) (some 1) (some 3) (some 1) none
     (by decide)⟩

/-- C7 (counterexample): a correlation request for the unknown column
name bogus_feature fails with the ValueError plotly raises, not with a
dedicated UnknownFeatureError (app.py defines none); the shared state is
returned untouched. -/
theorem correlation_unknown_is_valueError :
    handleCorrelation s0 "bogus_feature" "pH" = (s0, .error .valueError) ∧
    (Except.error ServiceError.valueError :
        Except ServiceError (List (ℚ × ℚ × ℚ))) ≠
      .error .unknownFeatureError := by
  exact ⟨rfl, by simp⟩

/-- C7 (amended): every correlation request returns the state unchanged
(the service keeps serving); with an unrecognized name among the two it
fails with the library ValueError (the code defines no
UnknownFeatureError); with two recognized names it returns one
(x, y, label) triple per record of the shared frame; every header column
name, quality included, is recognized. -/
theorem correlation_amended (s : ServiceState) (xf yf : String) :
    (handleCorrelation s xf yf).1 = s ∧
    (colFun xf = none ∨ colFun yf = none →
      (handleCorrelation s xf yf).2 = .error .valueError) ∧
    (∀ fx fy, colFun xf = some fx → colFun yf = some fy →
      (handleCorrelation s xf yf).2 =
        .ok (s.dataRows.map (fun r => (fx r, fy r, r.quality)))) ∧
    (∀ name ∈ columns, (colFun name).isSome) := by
  refine ⟨rfl, ?_, ?_, ?_⟩
  · intro h
    rcases h with h | h
    · simp [handleCorrelation, update_correlation_plot, h]
    · rcases hx : colFun xf with _ | fx <;>
        simp [handleCorrelation, update_correlation_plot, hx, h]
  · intro fx fy hx hy
    simp [handleCorrelation, update_correlation_plot, hx, hy]
  · intro name hname
    fin_cases hname <;> rfl

/-- C7 witness: the amended statement exercised at a concrete unknown
name and at a concrete pair of recognized names. -/
theorem correlation_amended_witness :
    (colFun "bogus_feature" = none ∨ colFun "pH" = none) ∧
    (handleCorrelation s0 "bogus_feature" "pH").2 = .error .valueError ∧
    colFun "alcohol" = some Row.alcohol ∧
    colFun "quality" = some Row.quality ∧
    (handleCorrelation s0 "alcohol" "quality").2 =
      .ok (s0.dataRows.map (fun r => (r.alcohol, r.quality, r.quality))) :=
  ⟨Or.inl rfl,
   (correlation_amended s0 "bogus_feature" "pH").2.1 (Or.inl rfl),
   rfl, rfl,
   (correlation_amended s0 "alcohol" "quality").2.2.1 Row.alcohol Row.quality
     rfl rfl⟩

/-- C8 (counterexample): with no positive label and no positive
prediction every denominator of precision, recall and F1 is zero, and
sklearn under its default zero_division reports 0.0 (some 0), not NaN
(none). -/
theorem metrics_zero_denominator_are_zero :
    TP [0, 0] [0, 0] + FP [0, 0] [0, 0] = 0 ∧
    TP [0, 0] [0, 0] + FN [0, 0] [0, 0] = 0 ∧
    precision_score [0, 0] [0, 0] = some 0 ∧
    recall_score [0, 0] [0, 0] = some 0 ∧
    f1_score [0, 0] [0, 0] = some 0 ∧
    (some (0 : ℚ) ≠ (none : MetricValue)) := by
  refine ⟨rfl, rfl, rfl, rfl, rfl, by simp⟩

/-- C8 (amended): the metric computations are total (never raise);
precision, recall and F1 report 0.0 rather than NaN when their
denominator is zero (sklearn default zero_division); accuracy alone is
NaN, on an empty test set. -/
theorem metrics_never_raise (y_true yp : List ℕ) :
    (TP y_true yp + FP y_true yp = 0 → precision_score y_true yp = some 0) ∧
    (TP y_true yp + FN y_true yp = 0 → recall_score y_true yp = some 0) ∧
    (2 * TP y_true yp + FP y_true yp + FN y_true yp = 0 →
      f1_score y_true yp = some 0) ∧
    (y_true = [] → accuracy_score y_true yp = none) ∧
    (precision_score y_true yp).isSome ∧
    (recall_score y_true yp).isSome ∧
    (f1_score y_true yp).isSome := by
  refine ⟨fun h => by simp [precision_score, h], fun h => by simp [recall_score, h],
    fun h => by simp [f1_score, h], fun h => by simp [accuracy_score, h],
    rfl, rfl, rfl⟩

/-- C8 witness: the amended statement at a zero-denominator test vector
and at the empty test set. -/
theorem metrics_never_raise_witness :
    (TP [0, 0] [0, 1] + FN [0, 0] [0, 1] = 0 ∧
      recall_score [0, 0] [0, 1] = some 0) ∧
    (accuracy_score ([] : List ℕ) ([] : List ℕ) = none) :=
  ⟨⟨by decide, (metrics_never_raise [0, 0] [0, 1]).2.1 (by decide)⟩,
   (metrics_never_raise [] []).2.2.2.1 rfl⟩

/-- C9 (counterexample): roc_curve returns its thresholds in strictly
decreasing order, not ascending: on labels [1, 0] with hard predictions
[1, 0] the thresholds are [2, 1, 0] with curve (0,0), (0,1), (1,1) and
trapezoidal AUC 1. -/
theorem roc_thresholds_not_ascending :
    (roc_curve [1, 0] [1, 0]).2.2 = [2, 1, 0] ∧
    ¬ List.Chain' (· ≤ ·) (roc_curve [1, 0] [1, 0]).2.2 ∧
    List.Chain' (· ≥ ·) (roc_curve [1, 0] [1, 0]).2.2 ∧
    roc_curve [1, 0] [1, 0] = ([0, 0, 1], [0, 1, 1], [2, 1, 0]) ∧
    roc_auc_score [1, 0] [1, 0] = 1 := by
  refine ⟨rfl, by simp [roc_curve, thresholdsOf], by simp [roc_curve, thresholdsOf],
    by norm_num [roc_curve, thresholdsOf, fpAt, tpAt],
    by norm_num [roc_auc_score, roc_curve, thresholdsOf, fpAt, tpAt, trapz]⟩

/-- C9 (amended): the pipeline ROC is computed from the hard 0/1
predictions of the model (not probability scores); the (FPR, TPR) pairs
are accumulated over thresholds in descending (not ascending) order;
the AUC is the trapezoidal integral under the curve; and the
computation is a pure function of (Model, test Dataset), hence
deterministic. -/
theorem roc_from_hard_predictions (m : Model) (testX : List Row)
    (testY : List ℕ) :
    (∀ sc ∈ y_pred m testX, sc = 0 ∨ sc = 1) ∧
    List.Chain' (· ≥ ·) (evalROC m testX testY).2.2 ∧
    evalAUC m testX testY =
      trapz (evalROC m testX testY).2.1 (evalROC m testX testY).1 ∧
    evalROC m testX testY = evalROC m testX testY := by
  refine ⟨?_, ?_, rfl, rfl⟩
  · intro sc hsc
    simp only [y_pred, List.mem_map] at hsc
    obtain ⟨r, _, hr⟩ := hsc
    rcases predict_cases m (features r) with h | h <;>
      rw [← hr, h] <;> simp
  · have hthr : ∀ yp : List ℕ, List.Chain' (· ≥ ·) (thresholdsOf yp) := by
      intro yp
      unfold thresholdsOf
      split <;> split <;> simp
    exact hthr (y_pred m testX)

/-- C9 witness: the amended statement at a concrete model and test set,
with the membership hypothesis of the first conjunct discharged at the
prediction value 1. -/
theorem roc_from_hard_predictions_witness :
    (1 ∈ y_pred m0 [rowQ7]) ∧ ((1 : ℕ) = 0 ∨ (1 : ℕ) = 1) ∧
    List.Chain' (· ≥ ·) (evalROC m0 [rowQ7] [1]).2.2 :=
  ⟨by simp [y_pred, Model.predict, Model.decision, m0, rowQ7, features],
   (roc_from_hard_predictions m0 [rowQ7] [1]).1 1
     (by simp [y_pred, Model.predict, Model.decision, m0, rowQ7, features]),
   (roc_from_hard_predictions m0 [rowQ7] [1]).2.1⟩

/-- C10: the prediction response is a function of the 11 feature values
and the held model only: the click count never changes it, and no
invocation modifies the shared Dataset or Model. -/
theorem predict_independent_of_nclicks (s : ServiceState) (n₁ n₂ : ℕ)
    (xs : List (Option ℚ)) :
    handlePredict s n₁ xs = handlePredict s n₂ xs ∧
    (handlePredict s n₁ xs).1 = s := by
  constructor
  · unfold handlePredict
    split <;> rfl
  · unfold handlePredict
    split <;> rfl

lemma map_getD_range {α : Type} [Inhabited α] (rows : List α) :
    (List.range rows.length).map (fun i => rows.getD i default) = rows := by
  apply List.ext_getElem
  · simp
  · intro i h1 h2
    simp [List.getD_eq_getElem?_getD, List.getElem?_eq_getElem h2]

/-- C4: for any permutation of the row indices (the deterministic draw
of the seed-42 RNG), the 0.20 split partitions the cleaned Dataset:
train and test index sets are disjoint, together they are exactly the
index set of the Dataset (so train and test rows together are a
permutation of the Dataset), the test size is the ceiling of 0.20 times
the Dataset size, hence within 1 of it, and the split is a pure function
of its inputs, so identical inputs give an identical partition. -/
theorem train_test_split_partition (perm : List ℕ) (rows : List Row)
    (hperm : perm.Perm (List.range rows.length)) :
    ((splitIndices perm (1/5) rows.length).1.Disjoint
      (splitIndices perm (1/5) rows.length).2) ∧
    ((splitIndices perm (1/5) rows.length).2 ++
      (splitIndices perm (1/5) rows.length).1).Perm (List.range rows.length) ∧
    ((train_test_split perm (1/5) rows).2 ++
      (train_test_split perm (1/5) rows).1).Perm rows ∧
    (train_test_split perm (1/5) rows).2.length =
      ⌈(1/5 : ℚ) * rows.length⌉₊ ∧
    |((train_test_split perm (1/5) rows).2.length : ℚ) -
      (1/5) * rows.length| ≤ 1 ∧
    train_test_split perm (1/5) rows = train_test_split perm (1/5) rows := by
  have hlen : perm.length = rows.length := by simpa using hperm.length_eq
  have hnt_le : nTest (1/5) rows.length ≤ rows.length := by
    rw [nTest, Nat.ceil_le]
    nlinarith [Nat.cast_nonneg (α := ℚ) rows.length]
  have happ : (splitIndices perm (1/5) rows.length).2 ++
      (splitIndices perm (1/5) rows.length).1 = perm := by
    simp [splitIndices]
  have hnd : perm.Nodup := hperm.nodup_iff.mpr (List.nodup_range _)
  have hU : ((splitIndices perm (1/5) rows.length).2 ++
      (splitIndices perm (1/5) rows.length).1).Perm (List.range rows.length) := by
    rw [happ]
    exact hperm
  have hlen2 : (train_test_split perm (1/5) rows).2.length =
      ⌈(1/5 : ℚ) * rows.length⌉₊ := by
    show ((splitIndices perm (1/5) rows.length).2.map
      (fun i => rows.getD i default)).length = _
    simp only [List.length_map, splitIndices, List.length_take, hlen]
    rw [Nat.min_eq_left hnt_le, nTest]
  refine ⟨?_, hU, ?_, hlen2, ?_, rfl⟩
  · have h2 : ((perm.take (nTest (1/5) rows.length)) ++
        (perm.drop (nTest (1/5) rows.length))).Nodup := by
      rw [List.take_append_drop]
      exact hnd
    exact (List.disjoint_of_nodup_append h2).symm
  · show (((splitIndices perm (1/5) rows.length).2.map
        (fun i => rows.getD i default)) ++
      ((splitIndices perm (1/5) rows.length).1.map
        (fun i => rows.getD i default))).Perm rows
    rw [← List.map_append]
    have h4 := hU.map (fun i => rows.getD i default)
    rwa [map_getD_range rows] at h4
  · rw [hlen2]
    have h1 : ((1 : ℚ)/5) * rows.length ≤
        (⌈(1/5 : ℚ) * rows.length⌉₊ : ℚ) := Nat.le_ceil _
    have h2 : ((⌈(1/5 : ℚ) * rows.length⌉₊ : ℚ)) <
        (1/5) * rows.length + 1 := Nat.ceil_lt_add_one (by positivity)
    rw [abs_le]
    constructor <;> linarith

/-- C4 witness: the partition properties at a concrete 5-row dataset
with a concrete index permutation standing in for the seed-42 draw. -/
theorem train_test_split_partition_witness :
    perm5.Perm (List.range rows5.length) ∧
    (((splitIndices perm5 (1/5) rows5.length).1.Disjoint
        (splitIndices perm5 (1/5) rows5.length).2) ∧
      ((splitIndices perm5 (1/5) rows5.length).2 ++
        (splitIndices perm5 (1/5) rows5.length).1).Perm
          (List.range rows5.length) ∧
      ((train_test_split perm5 (1/5) rows5).2 ++
        (train_test_split perm5 (1/5) rows5).1).Perm rows5 ∧
      (train_test_split perm5 (1/5) rows5).2.length =
        ⌈(1/5 : ℚ) * rows5.length⌉₊ ∧
      |((train_test_split perm5 (1/5) rows5).2.length : ℚ) -
        (1/5) * rows5.length| ≤ 1 ∧
      train_test_split perm5 (1/5) rows5 = train_test_split perm5 (1/5) rows5) :=
  ⟨by decide, train_test_split_partition perm5 rows5 (by decide)⟩
